import Mathlib

/-!
Shallow embedding of the LearnOpenGL tutorial repository (neapu/LearnOpenGL).

The OpenGL driver is modelled as an explicit state machine `GLState`: each
kind of GPU object (shader stage, program, buffer, vertex array, texture)
has a fresh-id counter and a list of currently live ids, and every GL call
appends an event to a chronological trace.  `glCreateShader`,
`glCreateProgram`, `glGenBuffers`, `glGenVertexArrays` and `glGenTextures`
always hand out the next fresh non-zero id (OpenGL returns non-zero names
on success).  Success or failure of shader compilation and program linking
is decided by the driver, which the embedding abstracts as a `GLOracle` of
pure functions of the submitted sources, so that every run is deterministic
and executable.
-/

namespace LearnGL

/-- The two shader stages used by the repository (GL_VERTEX_SHADER /
GL_FRAGMENT_SHADER). -/
inductive ShaderStage where
  | vertex
  | fragment
deriving DecidableEq, Repr

/-- Buffer binding targets used by the repository. -/
inductive BufferTarget where
  | arrayBuffer
  | elementArrayBuffer
deriving DecidableEq, Repr

/-- Texture parameter names set by the textured variant. -/
inductive TexParamName where
  | textureWrapS
  | textureWrapT
  | textureMinFilter
  | textureMagFilter
deriving DecidableEq, Repr

/-- Texture parameter values set by the textured variant. -/
inductive TexParamValue where
  | repeatWrap
  | linear
  | linearMipmapLinear
deriving DecidableEq, Repr

/-- Pixel formats chosen from the decoded channel count. -/
inductive PixelFormat where
  | red
  | rgb
  | rgba
deriving DecidableEq, Repr

/-- Primitive draw modes; the repository only draws GL_TRIANGLES. -/
inductive DrawMode where
  | triangles
deriving DecidableEq, Repr

/-- One OpenGL (or SDL presentation) call, recorded in the trace. -/
inductive GLEvent where
  | createShaderEv (stage : ShaderStage) (id : Nat)
  | shaderSourceEv (id : Nat)
  | compileShaderCmdEv (id : Nat)
  | deleteShaderEv (id : Nat)
  | createProgramEv (id : Nat)
  | attachShaderEv (program shader : Nat)
  | linkProgramEv (program : Nat)
  | deleteProgramEv (id : Nat)
  | useProgramEv (id : Nat)
  | getUniformLocationEv (program : Nat) (uname : String)
  | uniform1iEv (location : Int) (value : Int)
  | genVertexArraysEv (id : Nat)
  | deleteVertexArraysEv (id : Nat)
  | genBuffersEv (id : Nat)
  | deleteBuffersEv (id : Nat)
  | genTexturesEv (id : Nat)
  | deleteTexturesEv (id : Nat)
  | bindVertexArrayEv (id : Nat)
  | bindBufferEv (target : BufferTarget) (id : Nat)
  | bufferDataFloatEv (target : BufferTarget) (data : List Rat)
  | bufferDataIndexEv (target : BufferTarget) (data : List Nat)
  | vertexAttribPointerEv (index size : Nat) (normalized : Bool) (stride offset : Nat)
  | enableVertexAttribArrayEv (index : Nat)
  | activeTextureEv (texUnit : Nat)
  | bindTextureEv (id : Nat)
  | texParameteriEv (pname : TexParamName) (param : TexParamValue)
  | texImage2DEv (format : PixelFormat) (width height : Int)
  | generateMipmapEv
  | clearColorEv (r g b a : Rat)
  | clearEv
  | drawElementsEv (mode : DrawMode) (count : Nat)
  | viewportEv (x y width height : Int)
  | swapWindowEv
deriving DecidableEq, Repr

/-- State of the modelled OpenGL driver: fresh-id counters, live object
lists, and the chronological trace of calls issued so far. -/
structure GLState where
  nextShaderId : Nat := 0
  liveShaders : List Nat := []
  nextProgramId : Nat := 0
  livePrograms : List Nat := []
  nextVertexArrayId : Nat := 0
  liveVertexArrays : List Nat := []
  nextBufferId : Nat := 0
  liveBuffers : List Nat := []
  nextTextureId : Nat := 0
  liveTextures : List Nat := []
  trace : List GLEvent := []
deriving DecidableEq, Repr

/-- glCreateShader: returns a fresh non-zero shader name and marks it live. -/
def glCreateShader (stage : ShaderStage) (st : GLState) : Nat × GLState :=
  let id := st.nextShaderId + 1
  (id, { st with nextShaderId := id, liveShaders := id :: st.liveShaders,
                 trace := st.trace ++ [GLEvent.createShaderEv stage id] })

/-- glShaderSource: trace only (source upload has no object effect). -/
def glShaderSource (id : Nat) (st : GLState) : GLState :=
  { st with trace := st.trace ++ [GLEvent.shaderSourceEv id] }

/-- glCompileShader: trace only; the compile result is read via the oracle. -/
def glCompileShaderCmd (id : Nat) (st : GLState) : GLState :=
  { st with trace := st.trace ++ [GLEvent.compileShaderCmdEv id] }

/-- glDeleteShader: removes the shader from the live list. -/
def glDeleteShader (id : Nat) (st : GLState) : GLState :=
  { st with liveShaders := st.liveShaders.erase id,
            trace := st.trace ++ [GLEvent.deleteShaderEv id] }

/-- glCreateProgram: returns a fresh non-zero program name and marks it live. -/
def glCreateProgram (st : GLState) : Nat × GLState :=
  let id := st.nextProgramId + 1
  (id, { st with nextProgramId := id, livePrograms := id :: st.livePrograms,
                 trace := st.trace ++ [GLEvent.createProgramEv id] })

/-- glAttachShader: trace only. -/
def glAttachShader (program shader : Nat) (st : GLState) : GLState :=
  { st with trace := st.trace ++ [GLEvent.attachShaderEv program shader] }

/-- glLinkProgram: trace only; the link result is read via the oracle. -/
def glLinkProgram (program : Nat) (st : GLState) : GLState :=
  { st with trace := st.trace ++ [GLEvent.linkProgramEv program] }

/-- glDeleteProgram: removes the program from the live list. -/
def glDeleteProgram (id : Nat) (st : GLState) : GLState :=
  { st with livePrograms := st.livePrograms.erase id,
            trace := st.trace ++ [GLEvent.deleteProgramEv id] }

/-- glUseProgram: trace only. -/
def glUseProgram (id : Nat) (st : GLState) : GLState :=
  { st with trace := st.trace ++ [GLEvent.useProgramEv id] }

/-- glGenVertexArrays(1, ·): returns a fresh non-zero name, marks it live. -/
def glGenVertexArrays (st : GLState) : Nat × GLState :=
  let id := st.nextVertexArrayId + 1
  (id, { st with nextVertexArrayId := id, liveVertexArrays := id :: st.liveVertexArrays,
                 trace := st.trace ++ [GLEvent.genVertexArraysEv id] })

/-- glDeleteVertexArrays(1, ·): removes the name from the live list. -/
def glDeleteVertexArrays (id : Nat) (st : GLState) : GLState :=
  { st with liveVertexArrays := st.liveVertexArrays.erase id,
            trace := st.trace ++ [GLEvent.deleteVertexArraysEv id] }

/-- glGenBuffers(1, ·): returns a fresh non-zero name, marks it live. -/
def glGenBuffers (st : GLState) : Nat × GLState :=
  let id := st.nextBufferId + 1
  (id, { st with nextBufferId := id, liveBuffers := id :: st.liveBuffers,
                 trace := st.trace ++ [GLEvent.genBuffersEv id] })

/-- glDeleteBuffers(1, ·): removes the name from the live list. -/
def glDeleteBuffers (id : Nat) (st : GLState) : GLState :=
  { st with liveBuffers := st.liveBuffers.erase id,
            trace := st.trace ++ [GLEvent.deleteBuffersEv id] }

/-- glGenTextures(1, ·): returns a fresh non-zero name, marks it live. -/
def glGenTextures (st : GLState) : Nat × GLState :=
  let id := st.nextTextureId + 1
  (id, { st with nextTextureId := id, liveTextures := id :: st.liveTextures,
                 trace := st.trace ++ [GLEvent.genTexturesEv id] })

/-- glDeleteTextures(1, ·): removes the name from the live list. -/
def glDeleteTextures (id : Nat) (st : GLState) : GLState :=
  { st with liveTextures := st.liveTextures.erase id,
            trace := st.trace ++ [GLEvent.deleteTexturesEv id] }

/-- glBindVertexArray: trace only. -/
def glBindVertexArray (id : Nat) (st : GLState) : GLState :=
  { st with trace := st.trace ++ [GLEvent.bindVertexArrayEv id] }

/-- glBindBuffer: trace only. -/
def glBindBuffer (target : BufferTarget) (id : Nat) (st : GLState) : GLState :=
  { st with trace := st.trace ++ [GLEvent.bindBufferEv target id] }

/-- glBufferData with float (vertex) data: trace only. -/
def glBufferDataFloat (target : BufferTarget) (data : List Rat) (st : GLState) : GLState :=
  { st with trace := st.trace ++ [GLEvent.bufferDataFloatEv target data] }

/-- glBufferData with unsigned-int (index) data: trace only. -/
def glBufferDataIndex (target : BufferTarget) (data : List Nat) (st : GLState) : GLState :=
  { st with trace := st.trace ++ [GLEvent.bufferDataIndexEv target data] }

/-- glVertexAttribPointer: trace only (stride and offset in bytes). -/
def glVertexAttribPointer (index size : Nat) (normalized : Bool) (stride offset : Nat)
    (st : GLState) : GLState :=
  { st with trace := st.trace ++ [GLEvent.vertexAttribPointerEv index size normalized stride offset] }

/-- glEnableVertexAttribArray: trace only. -/
def glEnableVertexAttribArray (index : Nat) (st : GLState) : GLState :=
  { st with trace := st.trace ++ [GLEvent.enableVertexAttribArrayEv index] }

/-- glActiveTexture: trace only. -/
def glActiveTexture (texUnit : Nat) (st : GLState) : GLState :=
  { st with trace := st.trace ++ [GLEvent.activeTextureEv texUnit] }

/-- glBindTexture(GL_TEXTURE_2D, ·): trace only. -/
def glBindTexture (id : Nat) (st : GLState) : GLState :=
  { st with trace := st.trace ++ [GLEvent.bindTextureEv id] }

/-- glTexParameteri(GL_TEXTURE_2D, ·, ·): trace only. -/
def glTexParameteri (pname : TexParamName) (param : TexParamValue) (st : GLState) : GLState :=
  { st with trace := st.trace ++ [GLEvent.texParameteriEv pname param] }

/-- glTexImage2D: trace only. -/
def glTexImage2D (format : PixelFormat) (width height : Int) (st : GLState) : GLState :=
  { st with trace := st.trace ++ [GLEvent.texImage2DEv format width height] }

/-- glGenerateMipmap(GL_TEXTURE_2D): trace only. -/
def glGenerateMipmap (st : GLState) : GLState :=
  { st with trace := st.trace ++ [GLEvent.generateMipmapEv] }

/-- glClearColor: trace only (float literals embedded as rationals). -/
def glClearColor (r g b a : Rat) (st : GLState) : GLState :=
  { st with trace := st.trace ++ [GLEvent.clearColorEv r g b a] }

/-- glClear(GL_COLOR_BUFFER_BIT): trace only. -/
def glClear (st : GLState) : GLState :=
  { st with trace := st.trace ++ [GLEvent.clearEv] }

/-- glGetUniformLocation: trace only; the location is read via the oracle. -/
def glGetUniformLocationCmd (program : Nat) (uname : String) (st : GLState) : GLState :=
  { st with trace := st.trace ++ [GLEvent.getUniformLocationEv program uname] }

/-- glUniform1i: trace only. -/
def glUniform1i (location : Int) (value : Int) (st : GLState) : GLState :=
  { st with trace := st.trace ++ [GLEvent.uniform1iEv location value] }

/-- glDrawElements(mode, count, GL_UNSIGNED_INT, 0): trace only. -/
def glDrawElements (mode : DrawMode) (count : Nat) (st : GLState) : GLState :=
  { st with trace := st.trace ++ [GLEvent.drawElementsEv mode count] }

/-- glViewport: trace only. -/
def glViewport (x y width height : Int) (st : GLState) : GLState :=
  { st with trace := st.trace ++ [GLEvent.viewportEv x y width height] }

/-- SDL_GL_SwapWindow: presents the frame; trace only. -/
def sdlGLSwapWindow (st : GLState) : GLState :=
  { st with trace := st.trace ++ [GLEvent.swapWindowEv] }

/-- Deterministic abstraction of the driver results the code reads back:
GL_COMPILE_STATUS for each stage as a function of the submitted source
(read by Shader::checkCompileErrors), GL_LINK_STATUS as a function of the
two sources (read by Shader::checkLinkErrors), and uniform locations
(read by glGetUniformLocation). -/
structure GLOracle where
  vertexCompiles : String → Bool
  fragmentCompiles : String → Bool
  links : String → String → Bool
  uniformLocation : Nat → String → Int

/-- The Shader class: its only member is the owned program handle
m_programId, zero when invalid (Shader.h). -/
structure Shader where
  m_programId : Nat := 0
deriving DecidableEq, Repr

/-- Shader::isValid (Shader.h): the program handle is non-zero. -/
def Shader.isValid (sh : Shader) : Bool := sh.m_programId ≠ 0

/-- Shader::cleanup: if a program is held, glDeleteProgram it and reset the
handle to zero. -/
def Shader.cleanup (sh : Shader) (st : GLState) : Shader × GLState :=
  if sh.m_programId ≠ 0 then
    ({ m_programId := 0 }, glDeleteProgram sh.m_programId st)
  else
    (sh, st)

/-- Shader::compileShader: create a stage object, submit the source,
compile; on a failed GL_COMPILE_STATUS delete the stage object and return
0, otherwise return the stage object's name. -/
def Shader.compileShader (o : GLOracle) (stage : ShaderStage) (source : String)
    (st : GLState) : Nat × GLState :=
  let c := glCreateShader stage st
  let shader := c.1
  let st1 := glCompileShaderCmd shader (glShaderSource shader c.2)
  let ok := match stage with
    | ShaderStage.vertex => o.vertexCompiles source
    | ShaderStage.fragment => o.fragmentCompiles source
  if ok then (shader, st1) else (0, glDeleteShader shader st1)

/-- Shader::compile: release any previously held program, compile the
vertex stage, then the fragment stage, then create + attach + link a
program; delete the stage objects; on link failure delete the program and
zero the handle. -/
def Shader.compile (o : GLOracle) (sh : Shader) (vertexSource fragmentSource : String)
    (st : GLState) : Bool × Shader × GLState :=
  let c := Shader.cleanup sh st
  let sh0 := c.1
  let v := Shader.compileShader o ShaderStage.vertex vertexSource c.2
  let vertexShader := v.1
  if vertexShader = 0 then
    (false, sh0, v.2)
  else
    let f := Shader.compileShader o ShaderStage.fragment fragmentSource v.2
    let fragmentShader := f.1
    if fragmentShader = 0 then
      (false, sh0, glDeleteShader vertexShader f.2)
    else
      let p := glCreateProgram f.2
      let programId := p.1
      let st3 := glLinkProgram programId
        (glAttachShader programId fragmentShader (glAttachShader programId vertexShader p.2))
      let success := o.links vertexSource fragmentSource
      let st4 := glDeleteShader fragmentShader (glDeleteShader vertexShader st3)
      if success then
        (true, { m_programId := programId }, st4)
      else
        (false, { m_programId := 0 }, glDeleteProgram programId st4)

/-- Shader::loadFromFile: read the two shader files (a file system is a
map from path to optional contents); if either fails to open, log and
return false; otherwise delegate to compile on the full contents. -/
def Shader.loadFromFile (o : GLOracle) (fs : String → Option String) (sh : Shader)
    (vertexPath fragmentPath : String) (st : GLState) : Bool × Shader × GLState :=
  match fs vertexPath with
  | none => (false, sh, st)
  | some vertexSource =>
    match fs fragmentPath with
    | none => (false, sh, st)
    | some fragmentSource => Shader.compile o sh vertexSource fragmentSource st

/-- Shader::use: activate the program if the handle is non-zero, else no-op. -/
def Shader.use (sh : Shader) (st : GLState) : GLState :=
  if sh.m_programId ≠ 0 then glUseProgram sh.m_programId st else st

/-- Shader::setInt: glUniform1i at the location looked up by name. -/
def Shader.setInt (o : GLOracle) (sh : Shader) (uname : String) (value : Int)
    (st : GLState) : GLState :=
  glUniform1i (o.uniformLocation sh.m_programId uname) value
    (glGetUniformLocationCmd sh.m_programId uname st)

/-- SDL events relevant to the repository's event handling. -/
inductive SDLEvent where
  | quit
  | windowCloseRequested
  | windowResized (data1 data2 : Int)
  | keyDown (key : Nat)
  | otherEvent
deriving DecidableEq, Repr

/-- Window::processEvents (Window.cpp): a close request is only logged; a
resize updates the cached m_width/m_height to the event's data1/data2;
other events are ignored.  Returns the new cached (width, height). -/
def Window.processEvents (width height : Int) (e : SDLEvent) : Int × Int :=
  match e with
  | SDLEvent.windowResized d1 d2 => (d1, d2)
  | _ => (width, height)

/-- The vertex shader GLSL source embedded in the simple variant of
MyWindow.cpp (braces escaped as \x7b / \x7d). -/
def vertexShaderSource : String :=
  "\n#version 330 core\nlayout (location = 0) in vec3 aPos;\nvoid main()\n\x7b\n    gl_Position = vec4(aPos.x, aPos.y, aPos.z, 1.0);\n\x7d\n"

/-- The fragment shader GLSL source embedded in the simple variant of
MyWindow.cpp (braces escaped as \x7b / \x7d). -/
def fragmentShaderSource : String :=
  "\n#version 330 core\nout vec4 FragColor;\nvoid main()\n\x7b\n    FragColor = vec4(1.0f, 0.5f, 0.2f, 1.0f);\n\x7d\n"

/-- The quad vertex data of the simple variant: 4 vertices of (x, y, z),
float literals embedded as rationals. -/
def vertices1 : List Rat :=
  [1/2, 1/2, 0,
   1/2, -1/2, 0,
   -1/2, -1/2, 0,
   -1/2, 1/2, 0]

/-- The quad index data shared by both MyWindow variants: two triangles. -/
def rectIndices : List Nat := [0, 1, 3, 1, 2, 3]

/-- The quad vertex data of the textured variant: 4 vertices of
(x, y, z, s, t). -/
def vertices2 : List Rat :=
  [1/2, 1/2, 0, 1, 1,
   1/2, -1/2, 0, 1, 0,
   -1/2, -1/2, 0, 0, 0,
   -1/2, 1/2, 0, 0, 1]

/-- The MyWindow class of the simple (EBO quad) variant: the cached window
size inherited from Window, the owned Shader, and the VAO/VBO/EBO handles,
all zero-initialised. -/
structure MyWindow1 where
  m_width : Int := 800
  m_height : Int := 600
  m_shader : Shader := {}
  m_VAO : Nat := 0
  m_VBO : Nat := 0
  m_EBO : Nat := 0
deriving DecidableEq, Repr

/-- MyWindow::initialize of the simple variant: compile the embedded
shader sources (false on failure), then create VAO/VBO/EBO, upload the
quad vertex and index data, and configure the single position attribute
(stride 3 * sizeof(float) = 12 bytes). -/
def MyWindow1.initializeScene (o : GLOracle) (w : MyWindow1) (st : GLState) :
    Bool × MyWindow1 × GLState :=
  -- SDL_GL_MakeCurrent: no modelled GPU-object effect
  let r := Shader.compile o w.m_shader vertexShaderSource fragmentShaderSource st
  let w1 := { w with m_shader := r.2.1 }
  if r.1 = false then
    (false, w1, r.2.2)
  else
    let g1 := glGenVertexArrays r.2.2
    let g2 := glGenBuffers g1.2
    let g3 := glGenBuffers g2.2
    let w2 := { w1 with m_VAO := g1.1, m_VBO := g2.1, m_EBO := g3.1 }
    let st1 := glBindVertexArray w2.m_VAO g3.2
    let st2 := glBufferDataFloat BufferTarget.arrayBuffer vertices1
      (glBindBuffer BufferTarget.arrayBuffer w2.m_VBO st1)
    let st3 := glBufferDataIndex BufferTarget.elementArrayBuffer rectIndices
      (glBindBuffer BufferTarget.elementArrayBuffer w2.m_EBO st2)
    let st4 := glEnableVertexAttribArray 0 (glVertexAttribPointer 0 3 false 12 0 st3)
    let st5 := glBindVertexArray 0 st4
    (true, w2, st5)

/-- MyWindow::processEvents of the simple variant: on a resize, set the
viewport to the event's reported size, then delegate to the base class
(which updates the cached width/height; a close request is only logged). -/
def MyWindow1.processEvents (w : MyWindow1) (e : SDLEvent) (st : GLState) :
    MyWindow1 × GLState :=
  let st1 := match e with
    | SDLEvent.windowResized d1 d2 => glViewport 0 0 d1 d2 st
    | _ => st
  let p := Window.processEvents w.m_width w.m_height e
  ({ w with m_width := p.1, m_height := p.2 }, st1)

/-- MyWindow::render of the simple variant: clear to the fixed background
color (0.2, 0.3, 0.3, 1.0), activate the shader, bind the VAO, draw the 6
quad indices as triangles, and present the frame. -/
def MyWindow1.render (w : MyWindow1) (st : GLState) : GLState :=
  let st1 := glClear (glClearColor (1/5) (3/10) (3/10) 1 st)
  let st2 := Shader.use w.m_shader st1
  let st3 := glBindVertexArray w.m_VAO st2
  let st4 := glDrawElements DrawMode.triangles 6 st3
  sdlGLSwapWindow st4

/-- MyWindow::cleanup of the simple variant: delete each of VAO/VBO/EBO if
non-zero and reset it to zero (the shader cleans itself up on
destruction). -/
def MyWindow1.cleanup (w : MyWindow1) (st : GLState) : MyWindow1 × GLState :=
  let p1 := if w.m_VAO ≠ 0 then (0, glDeleteVertexArrays w.m_VAO st) else (w.m_VAO, st)
  let p2 := if w.m_VBO ≠ 0 then (0, glDeleteBuffers w.m_VBO p1.2) else (w.m_VBO, p1.2)
  let p3 := if w.m_EBO ≠ 0 then (0, glDeleteBuffers w.m_EBO p2.2) else (w.m_EBO, p2.2)
  ({ w with m_VAO := p1.1, m_VBO := p2.1, m_EBO := p3.1 }, p3.2)

/-- getResourcePath of the textured variant: SOURCE_DIR-based in Debug
builds (modelled by an optional source directory), executable-relative in
Release builds. -/
def getResourcePath (debugSourceDir : Option String) (subdir filename : String) : String :=
  match debugSourceDir with
  | some srcDir => srcDir ++ "/" ++ subdir ++ "/" ++ filename
  | none => "../" ++ subdir ++ "/" ++ filename

/-- getShaderPath of the textured variant. -/
def getShaderPath (debugSourceDir : Option String) (filename : String) : String :=
  getResourcePath debugSourceDir "shader" filename

/-- getImagePath of the textured variant. -/
def getImagePath (debugSourceDir : Option String) (filename : String) : String :=
  getResourcePath debugSourceDir "images" filename

/-- Result of a successful stbi_load: width, height and channel count of
the decoded image (the pixel bytes themselves are opaque to the model). -/
structure Image where
  width : Int
  height : Int
  nrChannels : Int
deriving DecidableEq, Repr

/-- Pixel format chosen by the textured variant from the decoded channel
count: GL_RED for 1, GL_RGB for 3, GL_RGBA for 4, and the GL_RGB initial
value otherwise. -/
def formatOfChannels (nrChannels : Int) : PixelFormat :=
  if nrChannels = 1 then PixelFormat.red
  else if nrChannels = 3 then PixelFormat.rgb
  else if nrChannels = 4 then PixelFormat.rgba
  else PixelFormat.rgb

/-- The MyWindow class of the textured variant: as the simple variant plus
an owned texture handle. -/
structure MyWindow2 where
  m_width : Int := 800
  m_height : Int := 600
  m_shader : Shader := {}
  m_VAO : Nat := 0
  m_VBO : Nat := 0
  m_EBO : Nat := 0
  m_texture : Nat := 0
deriving DecidableEq, Repr

/-- MyWindow::initialize of the textured variant: load the shader pair
from files (false on failure); generate and configure the texture object;
decode the image via stbi_load (modelled as a map from path to optional
Image) — on decode failure it logs and returns false, leaving the already
generated m_texture handle in place; on success upload the pixels,
generate mipmaps, then create VAO/VBO/EBO, upload the quad data and
configure the position and texture-coordinate attributes (stride
5 * sizeof(float) = 20 bytes, second attribute at byte offset 12). -/
def MyWindow2.initializeScene (o : GLOracle) (fs : String → Option String)
    (stbiLoad : String → Option Image) (debugSourceDir : Option String)
    (w : MyWindow2) (st : GLState) : Bool × MyWindow2 × GLState :=
  -- SDL_GL_MakeCurrent: no modelled GPU-object effect
  let vertexPath := getShaderPath debugSourceDir "vertex.glsl"
  let fragmentPath := getShaderPath debugSourceDir "fragment.glsl"
  let r := Shader.loadFromFile o fs w.m_shader vertexPath fragmentPath st
  let w1 := { w with m_shader := r.2.1 }
  if r.1 = false then
    (false, w1, r.2.2)
  else
    let imagePath := getImagePath debugSourceDir "image1.png"
    let g := glGenTextures r.2.2
    let w2 := { w1 with m_texture := g.1 }
    let st1 := glBindTexture w2.m_texture g.2
    let st2 := glTexParameteri TexParamName.textureWrapS TexParamValue.repeatWrap st1
    let st3 := glTexParameteri TexParamName.textureWrapT TexParamValue.repeatWrap st2
    let st4 := glTexParameteri TexParamName.textureMinFilter TexParamValue.linearMipmapLinear st3
    let st5 := glTexParameteri TexParamName.textureMagFilter TexParamValue.linear st4
    -- stbi_set_flip_vertically_on_load(true): no GPU effect
    match stbiLoad imagePath with
    | none =>
      -- logs the failure and returns false; m_texture is not deleted here
      (false, w2, st5)
    | some img =>
      let format := formatOfChannels img.nrChannels
      let st6 := glGenerateMipmap (glTexImage2D format img.width img.height st5)
      -- stbi_image_free(data): no GPU effect
      let g1 := glGenVertexArrays st6
      let g2 := glGenBuffers g1.2
      let g3 := glGenBuffers g2.2
      let w3 := { w2 with m_VAO := g1.1, m_VBO := g2.1, m_EBO := g3.1 }
      let st7 := glBindVertexArray w3.m_VAO g3.2
      let st8 := glBufferDataFloat BufferTarget.arrayBuffer vertices2
        (glBindBuffer BufferTarget.arrayBuffer w3.m_VBO st7)
      let st9 := glBufferDataIndex BufferTarget.elementArrayBuffer rectIndices
        (glBindBuffer BufferTarget.elementArrayBuffer w3.m_EBO st8)
      let st10 := glEnableVertexAttribArray 0 (glVertexAttribPointer 0 3 false 20 0 st9)
      let st11 := glEnableVertexAttribArray 1 (glVertexAttribPointer 1 2 false 20 12 st10)
      let st12 := glBindVertexArray 0 st11
      (true, w3, st12)

/-- MyWindow::processEvents of the textured variant: identical to the
simple variant's. -/
def MyWindow2.processEvents (w : MyWindow2) (e : SDLEvent) (st : GLState) :
    MyWindow2 × GLState :=
  let st1 := match e with
    | SDLEvent.windowResized d1 d2 => glViewport 0 0 d1 d2 st
    | _ => st
  let p := Window.processEvents w.m_width w.m_height e
  ({ w with m_width := p.1, m_height := p.2 }, st1)

/-- MyWindow::render of the textured variant: clear to the fixed
background color, bind the texture to unit 0, activate the shader, set the
sampler uniform, bind the VAO, draw the 6 quad indices, and present. -/
def MyWindow2.render (o : GLOracle) (w : MyWindow2) (st : GLState) : GLState :=
  let st1 := glClear (glClearColor (1/5) (3/10) (3/10) 1 st)
  let st2 := glBindTexture w.m_texture (glActiveTexture 0 st1)
  let st3 := Shader.use w.m_shader st2
  let st4 := Shader.setInt o w.m_shader "texture1" 0 st3
  let st5 := glBindVertexArray w.m_VAO st4
  let st6 := glDrawElements DrawMode.triangles 6 st5
  sdlGLSwapWindow st6

/-- MyWindow::cleanup of the textured variant: delete each of
VAO/VBO/EBO/texture if non-zero and reset it to zero. -/
def MyWindow2.cleanup (w : MyWindow2) (st : GLState) : MyWindow2 × GLState :=
  let p1 := if w.m_VAO ≠ 0 then (0, glDeleteVertexArrays w.m_VAO st) else (w.m_VAO, st)
  let p2 := if w.m_VBO ≠ 0 then (0, glDeleteBuffers w.m_VBO p1.2) else (w.m_VBO, p1.2)
  let p3 := if w.m_EBO ≠ 0 then (0, glDeleteBuffers w.m_EBO p2.2) else (w.m_EBO, p2.2)
  let p4 := if w.m_texture ≠ 0 then (0, glDeleteTextures w.m_texture p3.2) else (w.m_texture, p3.2)
  ({ w with m_VAO := p1.1, m_VBO := p2.1, m_EBO := p3.1, m_texture := p4.1 }, p4.2)

/-- SDLK_ESCAPE key code checked by the simplest variant's main loop. -/
def SDLK_ESCAPE : Nat := 27

/-- Success/failure of the process-level initialisation steps: SDL_Init,
SDL_CreateWindow, SDL_GL_CreateContext and gladLoadGLLoader. -/
structure SysOracle where
  sdlInitOk : Bool
  createWindowOk : Bool
  createContextOk : Bool
  gladOk : Bool
deriving DecidableEq, Repr

/-- How the process ends: a normal exit with a code, or an abnormal
termination (an uncaught C++ exception reaching std::terminate). -/
inductive ExitOutcome where
  | exited (code : Int)
  | aborted
deriving DecidableEq, Repr

/-- The MyWindow() constructor chain (MyWindow → OpenGLWindow → Window):
Window::Window throws std::runtime_error if SDL_CreateWindow fails;
OpenGLWindow::OpenGLWindow throws if SDL_GL_CreateContext or (on first
use) gladLoadGLLoader fails.  none models a thrown exception. -/
def makeMyWindow (sys : SysOracle) : Option MyWindow1 :=
  if sys.createWindowOk && sys.createContextOk && sys.gladOk then
    some { m_width := 800, m_height := 600 }
  else
    none

/-- The main loop of src/main.cpp, flattened over a finite event stream:
each event is dispatched to window->processEvents, and a quit event clears
the running flag so the loop exits (render calls between polls do not
affect control flow and are elided here).  none models an event stream
that never delivers a quit, i.e. a loop that never exits. -/
def runLoop1 : MyWindow1 → GLState → List SDLEvent → Option (MyWindow1 × GLState)
  | _, _, [] => none
  | w, st, e :: rest =>
    let p := MyWindow1.processEvents w e st
    match e with
    | SDLEvent.quit => some p
    | _ => runLoop1 p.1 p.2 rest

/-- The process entry point of src/main.cpp: SDL_Init failure exits -1;
the MyWindow constructor runs with no surrounding try/catch, so a
constructor failure is an uncaught exception (abnormal termination);
initialize() failure exits -1; otherwise the loop runs until a quit event
and the process exits 0. -/
def mainScene (o : GLOracle) (sys : SysOracle) (events : List SDLEvent)
    (st : GLState) : Option ExitOutcome :=
  if sys.sdlInitOk = false then some (ExitOutcome.exited (-1))
  else
    match makeMyWindow sys with
    | none => some ExitOutcome.aborted
    | some w =>
      let r := MyWindow1.initializeScene o w st
      if r.1 = false then some (ExitOutcome.exited (-1))
      else
        match runLoop1 r.2.1 r.2.2 events with
        | none => none
        | some _ => some (ExitOutcome.exited 0)

/-- The main loop of the simplest variant, flattened over a finite event
stream: it exits on a quit event or an escape key press (a resize only
adjusts the viewport; per-frame clear/swap calls are elided). -/
def runLoopSimple : List SDLEvent → Option Unit
  | [] => none
  | e :: rest =>
    match e with
    | SDLEvent.quit => some ()
    | SDLEvent.keyDown k => if k = SDLK_ESCAPE then some () else runLoopSimple rest
    | _ => runLoopSimple rest

/-- The process entry point of the simplest variant: each of SDL_Init,
SDL_CreateWindow, SDL_GL_CreateContext and gladLoadGLLoader failing makes
main return -1 directly; otherwise the loop runs until quit or escape and
the process exits 0. -/
def mainSimple (sys : SysOracle) (events : List SDLEvent) : Option ExitOutcome :=
  if sys.sdlInitOk = false then some (ExitOutcome.exited (-1))
  else if sys.createWindowOk = false then some (ExitOutcome.exited (-1))
  else if sys.createContextOk = false then some (ExitOutcome.exited (-1))
  else if sys.gladOk = false then some (ExitOutcome.exited (-1))
  else
    match runLoopSimple events with
    | none => none
    | some _ => some (ExitOutcome.exited 0)

/-- Recogniser for fragment-stage creation events. -/
def GLEvent.isFragmentStageCreate : GLEvent → Bool
  | GLEvent.createShaderEv ShaderStage.fragment _ => true
  | _ => false

/-- Recogniser for program-creation events. -/
def GLEvent.isCreateProgram : GLEvent → Bool
  | GLEvent.createProgramEv _ => true
  | _ => false

/-- Recogniser for program-link events. -/
def GLEvent.isLinkProgram : GLEvent → Bool
  | GLEvent.linkProgramEv _ => true
  | _ => false

/-- Recogniser for indexed draw calls. -/
def GLEvent.isDrawCall : GLEvent → Bool
  | GLEvent.drawElementsEv _ _ => true
  | _ => false

/-- An oracle whose driver rejects the vertex stage and accepts everything
else. -/
def failVertexOracle : GLOracle :=
  { vertexCompiles := fun _ => false, fragmentCompiles := fun _ => true,
    links := fun _ _ => true, uniformLocation := fun _ _ => 0 }

/-- An oracle whose driver accepts both stages and links successfully. -/
def allOkOracle : GLOracle :=
  { vertexCompiles := fun _ => true, fragmentCompiles := fun _ => true,
    links := fun _ _ => true, uniformLocation := fun _ _ => 0 }

/-- C1: if Shader::compile fails at any step (vertex-stage compilation,
fragment-stage compilation, or linking), it returns false, every
GPU object created during the attempt is released (the live shader-stage
list is unchanged, and the live program list changes only by the release
of the previously held program), and the program handle is zero
afterwards, so isValid() is false. -/
theorem c1_compile_failure_releases_all (o : GLOracle) (sh : Shader)
    (vs fs : String) (st : GLState)
    (h : ¬(o.vertexCompiles vs = true ∧ o.fragmentCompiles fs = true ∧
           o.links vs fs = true)) :
    (Shader.compile o sh vs fs st).1 = false ∧
    ((Shader.compile o sh vs fs st).2.1).m_programId = 0 ∧
    ((Shader.compile o sh vs fs st).2.1).isValid = false ∧
    ((Shader.compile o sh vs fs st).2.2).liveShaders = st.liveShaders ∧
    ((Shader.compile o sh vs fs st).2.2).livePrograms =
      (if sh.m_programId = 0 then st.livePrograms
       else st.livePrograms.erase sh.m_programId) := by
  by_cases hv : o.vertexCompiles vs = true
  · by_cases hf : o.fragmentCompiles fs = true
    · have hl : o.links vs fs = false := by
        simpa using fun hx => h ⟨hv, hf, hx⟩
      by_cases hp : sh.m_programId = 0 <;>
        simp [Shader.compile, Shader.compileShader, Shader.cleanup, Shader.isValid,
          glCreateShader, glShaderSource, glCompileShaderCmd, glDeleteShader,
          glCreateProgram, glAttachShader, glLinkProgram, glDeleteProgram,
          hv, hf, hl, hp, List.erase_cons_head, List.erase_cons_tail]
    · have hf' : o.fragmentCompiles fs = false := by simpa using hf
      by_cases hp : sh.m_programId = 0 <;>
        simp [Shader.compile, Shader.compileShader, Shader.cleanup, Shader.isValid,
          glCreateShader, glShaderSource, glCompileShaderCmd, glDeleteShader,
          glCreateProgram, glAttachShader, glLinkProgram, glDeleteProgram,
          hv, hf', hp, List.erase_cons_head, List.erase_cons_tail]
  · have hv' : o.vertexCompiles vs = false := by simpa using hv
    by_cases hp : sh.m_programId = 0 <;>
      simp [Shader.compile, Shader.compileShader, Shader.cleanup, Shader.isValid,
        glCreateShader, glShaderSource, glCompileShaderCmd, glDeleteShader,
        glCreateProgram, glAttachShader, glLinkProgram, glDeleteProgram,
        hv', hp, List.erase_cons_head, List.erase_cons_tail]

/-- Witness for C1 at a concrete failing driver and empty initial state. -/
theorem c1_compile_failure_releases_all_witness :
    (¬(failVertexOracle.vertexCompiles "v" = true ∧
       failVertexOracle.fragmentCompiles "f" = true ∧
       failVertexOracle.links "v" "f" = true)) ∧
    ((Shader.compile failVertexOracle {} "v" "f" {}).1 = false ∧
     ((Shader.compile failVertexOracle {} "v" "f" {}).2.1).m_programId = 0 ∧
     ((Shader.compile failVertexOracle {} "v" "f" {}).2.1).isValid = false ∧
     ((Shader.compile failVertexOracle {} "v" "f" {}).2.2).liveShaders =
       GLState.liveShaders {} ∧
     ((Shader.compile failVertexOracle {} "v" "f" {}).2.2).livePrograms =
       (if Shader.m_programId {} = 0 then GLState.livePrograms {}
        else (GLState.livePrograms {}).erase (Shader.m_programId {}))) :=
  ⟨by decide, c1_compile_failure_releases_all failVertexOracle {} "v" "f" {} (by decide)⟩

/-- C9: if the vertex stage fails to compile, Shader::compile returns
false and the GL calls it issues contain no fragment-stage creation, no
program creation and no program link: stage compilation short-circuits. -/
theorem c9_vertex_fail_short_circuits (o : GLOracle) (sh : Shader)
    (vs fs : String) (st : GLState)
    (h : o.vertexCompiles vs = false) :
    (Shader.compile o sh vs fs st).1 = false ∧
    (((Shader.compile o sh vs fs st).2.2).trace.drop st.trace.length).countP
      GLEvent.isFragmentStageCreate = 0 ∧
    (((Shader.compile o sh vs fs st).2.2).trace.drop st.trace.length).countP
      GLEvent.isCreateProgram = 0 ∧
    (((Shader.compile o sh vs fs st).2.2).trace.drop st.trace.length).countP
      GLEvent.isLinkProgram = 0 := by
  by_cases hp : sh.m_programId = 0 <;>
    simp [Shader.compile, Shader.compileShader, Shader.cleanup,
      glCreateShader, glShaderSource, glCompileShaderCmd, glDeleteShader,
      glDeleteProgram, h, hp, List.drop_left, GLEvent.isFragmentStageCreate,
      GLEvent.isCreateProgram, GLEvent.isLinkProgram, List.countP_cons]

/-- Witness for C9 at a concrete failing driver and empty initial state. -/
theorem c9_vertex_fail_short_circuits_witness :
    failVertexOracle.vertexCompiles "v" = false ∧
    ((Shader.compile failVertexOracle {} "v" "f" {}).1 = false ∧
     (((Shader.compile failVertexOracle {} "v" "f" {}).2.2).trace.drop
        (GLState.trace {}).length).countP GLEvent.isFragmentStageCreate = 0 ∧
     (((Shader.compile failVertexOracle {} "v" "f" {}).2.2).trace.drop
        (GLState.trace {}).length).countP GLEvent.isCreateProgram = 0 ∧
     (((Shader.compile failVertexOracle {} "v" "f" {}).2.2).trace.drop
        (GLState.trace {}).length).countP GLEvent.isLinkProgram = 0) :=
  ⟨by decide, c9_vertex_fail_short_circuits failVertexOracle {} "v" "f" {} (by decide)⟩

/-- C5: when a Shader already holds a program, compile() first deletes the
old program (the very first GL call of the attempt is that deletion,
before any creation) and the old handle is not live afterwards, whatever
the outcome of the new compilation: no handle is leaked across successive
compiles. -/
theorem c5_compile_releases_previous_program (o : GLOracle) (sh : Shader)
    (vs fs : String) (st : GLState)
    (hp : sh.m_programId ≠ 0)
    (hle : sh.m_programId ≤ st.nextProgramId)
    (hnd : st.livePrograms.Nodup) :
    (((Shader.compile o sh vs fs st).2.2).trace.drop st.trace.length).head? =
      some (GLEvent.deleteProgramEv sh.m_programId) ∧
    sh.m_programId ∉ ((Shader.compile o sh vs fs st).2.2).livePrograms := by
  have hne : sh.m_programId ∉ st.livePrograms.erase sh.m_programId :=
    hnd.not_mem_erase
  by_cases hv : o.vertexCompiles vs
  · by_cases hf : o.fragmentCompiles fs
    · by_cases hl : o.links vs fs
      · have hnew : sh.m_programId ≠ st.nextProgramId + 1 := by omega
        simp [Shader.compile, Shader.compileShader, Shader.cleanup,
          glCreateShader, glShaderSource, glCompileShaderCmd, glDeleteShader,
          glCreateProgram, glAttachShader, glLinkProgram, glDeleteProgram,
          hv, hf, hl, hp, hnew, hne, List.drop_left]
      · simp [Shader.compile, Shader.compileShader, Shader.cleanup,
          glCreateShader, glShaderSource, glCompileShaderCmd, glDeleteShader,
          glCreateProgram, glAttachShader, glLinkProgram, glDeleteProgram,
          hv, hf, hl, hp, hne, List.erase_cons_head, List.drop_left]
    · simp [Shader.compile, Shader.compileShader, Shader.cleanup,
        glCreateShader, glShaderSource, glCompileShaderCmd, glDeleteShader,
        glDeleteProgram, hv, hf, hp, hne, List.drop_left]
  · simp [Shader.compile, Shader.compileShader, Shader.cleanup,
      glCreateShader, glShaderSource, glCompileShaderCmd, glDeleteShader,
      glDeleteProgram, hv, hp, hne, List.drop_left]

/-- Witness for C5: a shader already holding live program 1 recompiled
against an all-accepting driver. -/
theorem c5_compile_releases_previous_program_witness :
    (Shader.m_programId { m_programId := 1 } ≠ 0) ∧
    (Shader.m_programId { m_programId := 1 } ≤
      GLState.nextProgramId { nextProgramId := 1, livePrograms := [1] }) ∧
    (GLState.livePrograms { nextProgramId := 1, livePrograms := [1] }).Nodup ∧
    ((((Shader.compile allOkOracle { m_programId := 1 } "v" "f"
        { nextProgramId := 1, livePrograms := [1] }).2.2).trace.drop
        (GLState.trace { nextProgramId := 1, livePrograms := [1] }).length).head? =
      some (GLEvent.deleteProgramEv (Shader.m_programId { m_programId := 1 })) ∧
     Shader.m_programId { m_programId := 1 } ∉
       ((Shader.compile allOkOracle { m_programId := 1 } "v" "f"
         { nextProgramId := 1, livePrograms := [1] }).2.2).livePrograms) :=
  ⟨by decide, by decide, by decide,
   c5_compile_releases_previous_program allOkOracle { m_programId := 1 } "v" "f"
     { nextProgramId := 1, livePrograms := [1] } (by decide) (by decide) (by decide)⟩

/-- C4: Shader::loadFromFile returns false when either path fails to open,
in which case no GL call is made at all (compile is never attempted and
the state is untouched); when both files open it delegates to compile on
their full contents. -/
theorem c4_loadFromFile_io_error (o : GLOracle) (fs : String → Option String)
    (sh : Shader) (vp fp : String) (st : GLState) :
    ((fs vp = none ∨ fs fp = none) →
      Shader.loadFromFile o fs sh vp fp st = (false, sh, st)) ∧
    (∀ vsrc fsrc, fs vp = some vsrc → fs fp = some fsrc →
      Shader.loadFromFile o fs sh vp fp st = Shader.compile o sh vsrc fsrc st) := by
  constructor
  · rintro (h | h)
    · simp [Shader.loadFromFile, h]
    · rcases hv : fs vp with _ | vsrc <;> simp [Shader.loadFromFile, hv, h]
  · intro vsrc fsrc h1 h2
    simp [Shader.loadFromFile, h1, h2]

/-- Witness for C4 on an empty file system. -/
theorem c4_loadFromFile_io_error_witness :
    Shader.loadFromFile allOkOracle (fun _ => none) {} "vertex.glsl"
      "fragment.glsl" {} = (false, {}, {}) :=
  (c4_loadFromFile_io_error allOkOracle (fun _ => none) {} "vertex.glsl"
    "fragment.glsl" {}).1 (Or.inl rfl)

/-- C10: Shader::loadFromFile is atomic on a file-open failure: it returns
false with the Shader and the GL state exactly as they were, so a
previously held program handle is unchanged and still live. -/
theorem c10_loadFromFile_atomic_on_io_error (o : GLOracle)
    (fs : String → Option String) (sh : Shader) (vp fp : String) (st : GLState)
    (h : fs vp = none ∨ fs fp = none) :
    Shader.loadFromFile o fs sh vp fp st = (false, sh, st) ∧
    ((Shader.loadFromFile o fs sh vp fp st).2.1).m_programId = sh.m_programId ∧
    (sh.m_programId ∈ st.livePrograms →
      sh.m_programId ∈ ((Shader.loadFromFile o fs sh vp fp st).2.2).livePrograms) := by
  rcases h with h | h
  · simp [Shader.loadFromFile, h]
  · rcases hv : fs vp with _ | vsrc <;> simp [Shader.loadFromFile, hv, h]

/-- Witness for C10: a shader holding live program 1 and an empty file
system. -/
theorem c10_loadFromFile_atomic_on_io_error_witness :
    ((fun (_ : String) => (none : Option String)) "vp" = none ∨
     (fun (_ : String) => (none : Option String)) "fp" = none) ∧
    (Shader.loadFromFile allOkOracle (fun _ => none) { m_programId := 1 } "vp" "fp"
       { nextProgramId := 1, livePrograms := [1] } =
       (false, { m_programId := 1 }, { nextProgramId := 1, livePrograms := [1] }) ∧
     ((Shader.loadFromFile allOkOracle (fun _ => none) { m_programId := 1 } "vp" "fp"
        { nextProgramId := 1, livePrograms := [1] }).2.1).m_programId =
       Shader.m_programId { m_programId := 1 } ∧
     (Shader.m_programId { m_programId := 1 } ∈
        GLState.livePrograms { nextProgramId := 1, livePrograms := [1] } →
      Shader.m_programId { m_programId := 1 } ∈
        ((Shader.loadFromFile allOkOracle (fun _ => none) { m_programId := 1 } "vp" "fp"
           { nextProgramId := 1, livePrograms := [1] }).2.2).livePrograms)) :=
  ⟨Or.inl rfl,
   c10_loadFromFile_atomic_on_io_error allOkOracle (fun _ => none) { m_programId := 1 }
     "vp" "fp" { nextProgramId := 1, livePrograms := [1] } (Or.inl rfl)⟩

/-- C6: cleanup() of both scene variants is idempotent: after one call
every owned handle (VAO, VBO, EBO, and in the textured variant the
texture) is zero, and a second call changes nothing — it performs no
deletions because each handle is checked non-zero before deletion. -/
theorem c6_cleanup_idempotent :
    ∀ (w1 : MyWindow1) (w2 : MyWindow2) (st1 st2 : GLState),
    (MyWindow1.cleanup (MyWindow1.cleanup w1 st1).1 (MyWindow1.cleanup w1 st1).2 =
       MyWindow1.cleanup w1 st1 ∧
     (MyWindow1.cleanup w1 st1).1.m_VAO = 0 ∧
     (MyWindow1.cleanup w1 st1).1.m_VBO = 0 ∧
     (MyWindow1.cleanup w1 st1).1.m_EBO = 0) ∧
    (MyWindow2.cleanup (MyWindow2.cleanup w2 st2).1 (MyWindow2.cleanup w2 st2).2 =
       MyWindow2.cleanup w2 st2 ∧
     (MyWindow2.cleanup w2 st2).1.m_VAO = 0 ∧
     (MyWindow2.cleanup w2 st2).1.m_VBO = 0 ∧
     (MyWindow2.cleanup w2 st2).1.m_EBO = 0 ∧
     (MyWindow2.cleanup w2 st2).1.m_texture = 0) := by
  intro w1 w2 st1 st2
  constructor
  · by_cases h1 : w1.m_VAO = 0 <;> by_cases h2 : w1.m_VBO = 0 <;>
      by_cases h3 : w1.m_EBO = 0 <;>
      simp [MyWindow1.cleanup, h1, h2, h3]
  · by_cases h1 : w2.m_VAO = 0 <;> by_cases h2 : w2.m_VBO = 0 <;>
      by_cases h3 : w2.m_EBO = 0 <;> by_cases h4 : w2.m_texture = 0 <;>
      simp [MyWindow2.cleanup, h1, h2, h3, h4]

/-- C8: processEvents on a resize event sets the viewport to exactly the
event's reported width/height and updates the cached window size to
exactly those values (in both scene variants and in the base Window); a
close-request event is only logged and leaves the window and the GL state
completely unchanged. -/
theorem c8_processEvents_resize_and_close :
    ∀ (w1 : MyWindow1) (w2 : MyWindow2) (st : GLState) (width height d1 d2 : Int),
    ((MyWindow1.processEvents w1 (SDLEvent.windowResized d1 d2) st).1.m_width = d1 ∧
     (MyWindow1.processEvents w1 (SDLEvent.windowResized d1 d2) st).1.m_height = d2 ∧
     (MyWindow1.processEvents w1 (SDLEvent.windowResized d1 d2) st).2.trace =
       st.trace ++ [GLEvent.viewportEv 0 0 d1 d2] ∧
     MyWindow1.processEvents w1 SDLEvent.windowCloseRequested st = (w1, st)) ∧
    ((MyWindow2.processEvents w2 (SDLEvent.windowResized d1 d2) st).1.m_width = d1 ∧
     (MyWindow2.processEvents w2 (SDLEvent.windowResized d1 d2) st).1.m_height = d2 ∧
     (MyWindow2.processEvents w2 (SDLEvent.windowResized d1 d2) st).2.trace =
       st.trace ++ [GLEvent.viewportEv 0 0 d1 d2] ∧
     MyWindow2.processEvents w2 SDLEvent.windowCloseRequested st = (w2, st)) ∧
    (Window.processEvents width height (SDLEvent.windowResized d1 d2) = (d1, d2) ∧
     Window.processEvents width height SDLEvent.windowCloseRequested =
       (width, height)) := by
  intro w1 w2 st width height d1 d2
  refine ⟨⟨?_, ?_, ?_, ?_⟩, ⟨?_, ?_, ?_, ?_⟩, ?_, ?_⟩ <;>
    simp [MyWindow1.processEvents, MyWindow2.processEvents, Window.processEvents,
      glViewport]

/-- C7: render() of either scene variant, on a scene whose shader holds a
valid (non-zero) program, issues exactly this call sequence: clear to the
fixed background color (0.2, 0.3, 0.3, 1.0), activate the shader, bind
the vertex-array state (binding the texture first in the textured
variant), issue exactly one indexed draw call with index count 6, and
present the frame; in particular the delta contains exactly one draw
call. -/
theorem c7_render_single_draw_of_six (w1 : MyWindow1) (w2 : MyWindow2)
    (o : GLOracle) (st1 st2 : GLState)
    (h1 : w1.m_shader.m_programId ≠ 0) (h2 : w2.m_shader.m_programId ≠ 0) :
    (MyWindow1.render w1 st1).trace = st1.trace ++
      [GLEvent.clearColorEv (1/5) (3/10) (3/10) 1, GLEvent.clearEv,
       GLEvent.useProgramEv w1.m_shader.m_programId,
       GLEvent.bindVertexArrayEv w1.m_VAO,
       GLEvent.drawElementsEv DrawMode.triangles 6,
       GLEvent.swapWindowEv] ∧
    ((MyWindow1.render w1 st1).trace.drop st1.trace.length).countP
      GLEvent.isDrawCall = 1 ∧
    (MyWindow2.render o w2 st2).trace = st2.trace ++
      [GLEvent.clearColorEv (1/5) (3/10) (3/10) 1, GLEvent.clearEv,
       GLEvent.activeTextureEv 0, GLEvent.bindTextureEv w2.m_texture,
       GLEvent.useProgramEv w2.m_shader.m_programId,
       GLEvent.getUniformLocationEv w2.m_shader.m_programId "texture1",
       GLEvent.uniform1iEv (o.uniformLocation w2.m_shader.m_programId "texture1") 0,
       GLEvent.bindVertexArrayEv w2.m_VAO,
       GLEvent.drawElementsEv DrawMode.triangles 6,
       GLEvent.swapWindowEv] ∧
    ((MyWindow2.render o w2 st2).trace.drop st2.trace.length).countP
      GLEvent.isDrawCall = 1 := by
  refine ⟨?_, ?_, ?_, ?_⟩ <;>
    simp [MyWindow1.render, MyWindow2.render, Shader.use, Shader.setInt,
      glClearColor, glClear, glUseProgram, glBindVertexArray, glDrawElements,
      sdlGLSwapWindow, glActiveTexture, glBindTexture, glGetUniformLocationCmd,
      glUniform1i, h1, h2, List.drop_left, GLEvent.isDrawCall, List.countP_cons]

/-- Witness for C7 at concrete scenes holding program 1. -/
theorem c7_render_single_draw_of_six_witness :
    (Shader.m_programId { m_programId := 1 } ≠ 0) ∧
    (((MyWindow1.render { m_shader := { m_programId := 1 } } {}).trace.drop
        (GLState.trace {}).length).countP GLEvent.isDrawCall = 1 ∧
     ((MyWindow2.render allOkOracle { m_shader := { m_programId := 1 } } {}).trace.drop
        (GLState.trace {}).length).countP GLEvent.isDrawCall = 1) :=
  ⟨by decide,
   (c7_render_single_draw_of_six { m_shader := { m_programId := 1 } }
      { m_shader := { m_programId := 1 } } allOkOracle {} {}
      (by decide) (by decide)).2.1,
   (c7_render_single_draw_of_six { m_shader := { m_programId := 1 } }
      { m_shader := { m_programId := 1 } } allOkOracle {} {}
      (by decide) (by decide)).2.2.2⟩

/-- C2 evidence: evaluating the textured variant's initialize() at the
failing input — shader files open and compile fine, but stbi_load fails to
decode the image.  It returns false, yet the texture handle generated
earlier in the same attempt is still held (m_texture = 1 ≠ 0) and still
live in the driver: the partial resource of the failed attempt is not
released, contradicting the required full rollback. -/
theorem c2_initialize_decode_failure_leaks_texture :
    (MyWindow2.initializeScene allOkOracle (fun _ => some "src") (fun _ => none)
      none {} {}).1 = false ∧
    ((MyWindow2.initializeScene allOkOracle (fun _ => some "src") (fun _ => none)
      none {} {}).2.1).m_texture = 1 ∧
    1 ∈ ((MyWindow2.initializeScene allOkOracle (fun _ => some "src") (fun _ => none)
      none {} {}).2.2).liveTextures := by
  refine ⟨rfl, rfl, ?_⟩
  decide

/-- Helper: the simplest variant's loop returns once a quit event is in
the stream (an escape key may end it even earlier, with the same result). -/
lemma runLoopSimple_quit (events : List SDLEvent)
    (h : SDLEvent.quit ∈ events) : runLoopSimple events = some () := by
  induction events with
  | nil => cases h
  | cons e rest ih =>
    cases e with
    | quit => rfl
    | windowCloseRequested =>
      simp only [List.mem_cons] at h
      rcases h with h | h
      · cases h
      · simpa [runLoopSimple] using ih h
    | windowResized d1 d2 =>
      simp only [List.mem_cons] at h
      rcases h with h | h
      · cases h
      · simpa [runLoopSimple] using ih h
    | keyDown k =>
      simp only [List.mem_cons] at h
      rcases h with h | h
      · cases h
      · by_cases hk : k = SDLK_ESCAPE <;> simp [runLoopSimple, hk, ih h]
    | otherEvent =>
      simp only [List.mem_cons] at h
      rcases h with h | h
      · cases h
      · simpa [runLoopSimple] using ih h

/-- Helper: the scene variant's loop returns once a quit event is in the
stream. -/
lemma runLoop1_quit (w : MyWindow1) (st : GLState) (events : List SDLEvent)
    (h : SDLEvent.quit ∈ events) :
    ∃ p, runLoop1 w st events = some p := by
  induction events generalizing w st with
  | nil => cases h
  | cons e rest ih =>
    cases e with
    | quit => exact ⟨_, rfl⟩
    | windowCloseRequested =>
      simp only [List.mem_cons] at h
      rcases h with h | h
      · cases h
      · simpa [runLoop1] using ih _ _ h
    | windowResized d1 d2 =>
      simp only [List.mem_cons] at h
      rcases h with h | h
      · cases h
      · simpa [runLoop1] using ih _ _ h
    | keyDown k =>
      simp only [List.mem_cons] at h
      rcases h with h | h
      · cases h
      · simpa [runLoop1] using ih _ _ h
    | otherEvent =>
      simp only [List.mem_cons] at h
      rcases h with h | h
      · cases h
      · simpa [runLoop1] using ih _ _ h

/-- C3 counterexample: in the scene variant's entry point, when SDL
initialises but window creation fails, the MyWindow constructor throws
with no surrounding try/catch, so the process terminates abnormally — not
with exit code -1 as the claim states. -/
theorem c3_window_failure_aborts_counterexample :
    mainScene allOkOracle
      { sdlInitOk := true, createWindowOk := false,
        createContextOk := true, gladOk := true }
      [SDLEvent.quit] {} = some ExitOutcome.aborted ∧
    some ExitOutcome.aborted ≠ some (ExitOutcome.exited (-1)) := by
  exact ⟨rfl, by decide⟩

/-- C3 amended: both entry points exit 0 on normal termination (quit
observed) and -1 when SDL_Init or (in the scene variant) scene
initialization fails; the simplest variant also exits -1 on window,
context or GL-loader failure, but in the scene variant those three
constructor failures are uncaught exceptions that abort the process
instead of exiting -1. -/
theorem c3_exit_codes_amended (o : GLOracle) (sys : SysOracle)
    (events : List SDLEvent) (st : GLState) :
    (sys.sdlInitOk = false →
      mainSimple sys events = some (ExitOutcome.exited (-1)) ∧
      mainScene o sys events st = some (ExitOutcome.exited (-1))) ∧
    (sys.sdlInitOk = true →
      (sys.createWindowOk && sys.createContextOk && sys.gladOk) = false →
      mainSimple sys events = some (ExitOutcome.exited (-1)) ∧
      mainScene o sys events st = some ExitOutcome.aborted) ∧
    (sys.sdlInitOk = true →
      (sys.createWindowOk && sys.createContextOk && sys.gladOk) = true →
      ((MyWindow1.initializeScene o { m_width := 800, m_height := 600 } st).1 = false →
        mainScene o sys events st = some (ExitOutcome.exited (-1))) ∧
      (SDLEvent.quit ∈ events →
        mainSimple sys events = some (ExitOutcome.exited 0)) ∧
      ((MyWindow1.initializeScene o { m_width := 800, m_height := 600 } st).1 = true →
        SDLEvent.quit ∈ events →
        mainScene o sys events st = some (ExitOutcome.exited 0))) := by
  refine ⟨?_, ?_, ?_⟩
  · intro h
    simp [mainSimple, mainScene, h]
  · intro h1 h2
    cases hw : sys.createWindowOk <;> cases hc : sys.createContextOk <;>
      cases hg : sys.gladOk <;>
      simp_all [mainSimple, mainScene, makeMyWindow]
  · intro h1 h2
    simp only [Bool.and_eq_true] at h2
    obtain ⟨⟨hw, hc⟩, hg⟩ := h2
    refine ⟨?_, ?_, ?_⟩
    · intro hInit
      simp [mainScene, makeMyWindow, h1, hw, hc, hg, hInit]
    · intro hq
      simp [mainSimple, h1, hw, hc, hg, runLoopSimple_quit events hq]
    · intro hInit hq
      obtain ⟨p, hp⟩ := runLoop1_quit
        (MyWindow1.initializeScene o { m_width := 800, m_height := 600 } st).2.1
        (MyWindow1.initializeScene o { m_width := 800, m_height := 600 } st).2.2
        events hq
      simp [mainScene, makeMyWindow, h1, hw, hc, hg, hInit, hp]

/-- Witness for C3's amended statement: all initialisation succeeds and a
quit event arrives, so the scene entry point exits 0. -/
theorem c3_exit_codes_amended_witness :
    mainScene allOkOracle
      { sdlInitOk := true, createWindowOk := true,
        createContextOk := true, gladOk := true }
      [SDLEvent.quit] {} = some (ExitOutcome.exited 0) :=
  ((c3_exit_codes_amended allOkOracle
      { sdlInitOk := true, createWindowOk := true,
        createContextOk := true, gladOk := true }
      [SDLEvent.quit] {}).2.2 rfl rfl).2.2 rfl (by decide)

end LearnGL
